import Mathlib

/-!
Verification development for the `websocket-web` crate: a shallow embedding of
its message model, close-code taxonomy, credit-pool (standard) backend,
native-backpressure (stream) backend, byte-stream adapter and transport facade,
together with theorems settling the specification claims about them.
-/

namespace WebsocketWeb

/-! ## Message model (src/lib.rs, `Msg`) -/

/-- A WebSocket message (`Msg` in src/lib.rs): text or binary.
Binary payloads are modelled as lists of byte values. -/
inductive Msg where
  | text (s : String)
  | binary (data : List Nat)
deriving DecidableEq

/-- `Msg::len`: byte length of the payload (UTF-8 byte length for text). -/
def Msg.len : Msg → Nat
  | .text s => s.utf8ByteSize
  | .binary d => d.length

/-- `Msg::to_vec`: convert to binary (UTF-8 bytes for text, identity for binary). -/
def Msg.to_vec : Msg → List Nat
  | .text s => s.toUTF8.toList.map (fun b => b.toNat)
  | .binary d => d

/-! ## Close codes (src/closed.rs, `CloseCode`) -/

/-- `CloseCode` from src/closed.rs: the well-known codes 1000-1003 and
1005-1015 plus the open `Other` variant carrying the raw value. -/
inductive CloseCode where
  | normalClosure
  | goingAway
  | protocolError
  | unsupportedData
  | noStatusRcvd
  | abnormalClosure
  | invalidFramePayloadData
  | policyViolation
  | messageTooBig
  | mandatoryExt
  | internalError
  | serviceRestart
  | tryAgainLater
  | badGateway
  | tlsHandshake
  | other (code : Nat)
deriving DecidableEq

/-- `impl From<CloseCode> for u16` (src/closed.rs lines 90-111). -/
def u16OfCloseCode : CloseCode → Nat
  | .normalClosure => 1000
  | .goingAway => 1001
  | .protocolError => 1002
  | .unsupportedData => 1003
  | .noStatusRcvd => 1005
  | .abnormalClosure => 1006
  | .invalidFramePayloadData => 1007
  | .policyViolation => 1008
  | .messageTooBig => 1009
  | .mandatoryExt => 1010
  | .internalError => 1011
  | .serviceRestart => 1012
  | .tryAgainLater => 1013
  | .badGateway => 1014
  | .tlsHandshake => 1015
  | .other code => code

/-- `impl From<u16> for CloseCode` (src/closed.rs lines 113-134); the Rust
match on numeric literals is rendered as the equivalent chain of equality
tests, with the catch-all mapping to `Other`. -/
def closeCodeOfU16 (v : Nat) : CloseCode :=
  if v = 1000 then .normalClosure
  else if v = 1001 then .goingAway
  else if v = 1002 then .protocolError
  else if v = 1003 then .unsupportedData
  else if v = 1005 then .noStatusRcvd
  else if v = 1006 then .abnormalClosure
  else if v = 1007 then .invalidFramePayloadData
  else if v = 1008 then .policyViolation
  else if v = 1009 then .messageTooBig
  else if v = 1010 then .mandatoryExt
  else if v = 1011 then .internalError
  else if v = 1012 then .serviceRestart
  else if v = 1013 then .tryAgainLater
  else if v = 1014 then .badGateway
  else if v = 1015 then .tlsHandshake
  else .other v

/-- Modelled from the spec: `CloseCode::is_valid` is called by
`WebSocketSender::close_with_reason` (src/lib.rs line 610) but its definition
is not among the provided sources. The spec's close contract states that a
locally initiated close code must be `NormalClosure` or `Other` in
[3000, 4999]. -/
def CloseCode.is_valid : CloseCode → Bool
  | .normalClosure => true
  | .other v => decide (3000 ≤ v) && decide (v ≤ 4999)
  | _ => false

/-- `WebSocketSender::close_with_reason` (src/lib.rs lines 608-618): panics
(modelled as `none`) when the close code is invalid, otherwise forwards the
raw code and reason to the backend sender's close. -/
def close_with_reason (code : CloseCode) (reason : String) : Option (Nat × String) :=
  if code.is_valid then some (u16OfCloseCode code, reason) else none

/-! ## Closure reason (src/closed.rs, `ClosedReason`)

The declaration in src/closed.rs (lines 10-17) carries the fields `code` and
`reason` only. The model below additionally carries a `was_clean` component:
every construction site of a closure record in the sources (src/standard.rs
lines 98-102, 131-135, 160 and src/stream.rs lines 144-155) sets a
`was_clean` value, and `Receiver::poll_next` (src/standard.rs line 279) reads
it to pick the terminal result, so the closure record that the backends
construct and consume cannot be modelled without it. -/

/-- The closure record as constructed and consumed by the backends: the
close code and human-readable reason of the declared `ClosedReason` struct,
plus the `was_clean` flag set at every construction site and read by
`Receiver::poll_next`. -/
structure ClosedReason where
  code : CloseCode
  reason : String
  was_clean : Bool
deriving DecidableEq

/-! ## Credit-pool backend (src/standard.rs)

The standard-interface backend is modelled as a state machine over the state
shared by the `on_msg`/`on_close` callbacks and the `Receiver`:
the semaphore of receive permits (`buffered`), the unbounded mpsc queue,
whether the queue's sender is still alive (`tx` is `Some`), and the value of
the `closed_tx` watch channel. -/

namespace Standard

/-- `DEFAULT_RECEIVE_BUFFER_SIZE` from src/standard.rs line 32. -/
def DEFAULT_RECEIVE_BUFFER_SIZE : Nat := 67108864

/-- Shared state of the standard backend's receive path. -/
structure State where
  /-- Initial permit count of the `buffered` semaphore. -/
  capacity : Nat
  /-- Currently available permits of the `buffered` semaphore. -/
  permits : Nat
  /-- Contents of the unbounded mpsc channel, oldest first. -/
  queue : List Msg
  /-- Whether `tx` still holds the channel sender (`tx.borrow()` is `Some`). -/
  txOpen : Bool
  /-- Current value of the `closed_tx` watch channel. -/
  closedReason : Option ClosedReason
deriving DecidableEq

/-- The reason recorded by `on_msg` when the permit cannot be granted
(src/standard.rs lines 131-135). -/
def overflowReason : ClosedReason :=
  { code := .messageTooBig, reason := "receive buffer overflow", was_clean := false }

/-- Initial state after `Inner::new`: the semaphore holds
`receive_buffer_size.unwrap_or(DEFAULT_RECEIVE_BUFFER_SIZE)` permits, the
queue is empty, the sender is alive and no closure reason is recorded. -/
def initState (receive_buffer_size : Option Nat) : State :=
  { capacity := receive_buffer_size.getD DEFAULT_RECEIVE_BUFFER_SIZE
    permits := receive_buffer_size.getD DEFAULT_RECEIVE_BUFFER_SIZE
    queue := []
    txOpen := true
    closedReason := none }

/-- The `on_msg` callback (src/standard.rs lines 109-141): try-acquire a
permit of the message's byte length; on success, if the sender is alive the
message is enqueued and the permit forgotten (held), otherwise the permit is
dropped back and the message discarded; on failure the overflow reason is
recorded via `send_replace` and the sender is dropped. -/
def on_msg (s : State) (m : Msg) : State :=
  if m.len ≤ s.permits then
    if s.txOpen then
      { s with permits := s.permits - m.len, queue := s.queue ++ [m] }
    else s
  else
    { s with closedReason := some overflowReason, txOpen := false }

/-- The `on_close` callback (src/standard.rs lines 94-106): records the close
event's code, reason and `wasClean` flag via `send_replace` and drops the
channel sender. -/
def on_close (s : State) (code : Nat) (reason : String) (wasClean : Bool) : State :=
  { s with
    closedReason := some { code := closeCodeOfU16 code, reason := reason, was_clean := wasClean }
    txOpen := false }

/-- Outcome of one `Receiver::poll_next` call. -/
inductive PollNext where
  | pending
  | item (m : Msg)
  | connReset (reason : String)
  | ended
deriving DecidableEq

/-- `Receiver::poll_next` (src/standard.rs lines 272-286): dequeue from the
mpsc channel, adding the message's length back to the permit pool; when the
channel is exhausted and closed, the recorded closure reason determines the
terminal result. -/
def poll_next (s : State) : PollNext × State :=
  match s.queue with
  | m :: rest => (.item m, { s with queue := rest, permits := s.permits + m.len })
  | [] =>
    if s.txOpen then (.pending, s)
    else
      match s.closedReason with
      | some r => if r.was_clean then (.ended, s) else (.connReset r.reason, s)
      | none => (.connReset "WebSocket closed", s)

/-- External stimuli and caller actions driving the receive path. -/
inductive Event where
  | arrive (m : Msg)
  | closeEvent (code : Nat) (reason : String) (wasClean : Bool)
  | dequeue
deriving DecidableEq

/-- One step of the receive-path state machine. -/
def step (s : State) : Event → State
  | .arrive m => on_msg s m
  | .closeEvent c r w => on_close s c r w
  | .dequeue => (poll_next s).2

/-- The state reached from a fresh connection after a sequence of events. -/
def run (receive_buffer_size : Option Nat) (es : List Event) : State :=
  es.foldl step (initState receive_buffer_size)

/-- Total byte length of messages queued but not yet dequeued. -/
def queuedBytes (s : State) : Nat := (s.queue.map Msg.len).sum

/-- The credit invariant: available permits plus queued bytes equal the
configured capacity, which never changes. -/
def CreditInv (c : Nat) (s : State) : Prop :=
  s.capacity = c ∧ s.permits + queuedBytes s = c

/-- Whether an event writes the `closed_tx` watch channel in the given state:
a close event always does, a message arrival does exactly when the permit
cannot be granted. -/
def recordsReason (s : State) : Event → Bool
  | .arrive m => decide (s.permits < m.len)
  | .closeEvent _ _ _ => true
  | .dequeue => false

/-- `Inner::closed` (src/standard.rs lines 153-166): an observer's future
resolves with the currently recorded reason once one is present. -/
def observeClosed (s : State) : Option ClosedReason := s.closedReason

end Standard

/-! ## Byte-stream adapter (src/lib.rs, `AsyncRead`/`AsyncWrite` impls) -/

namespace ByteStream

/-- State of the byte-oriented read side: the messages still to be produced
by the underlying receiver (the stream ends after the last one) and the
partial-read buffer `read_buf`. -/
structure ReadState where
  msgs : List Msg
  read_buf : List Nat
deriving DecidableEq

/-- The `while self.read_buf.is_empty()` loop of `poll_read` (src/lib.rs
lines 825-828): if the buffer is non-empty, keep it; otherwise pull messages,
converting each to bytes, until the buffer is non-empty or the underlying
receiver reports end-of-stream (`none`). -/
def fillBuf : List Msg → List Nat → Option (List Nat × List Msg)
  | ms, b :: bs => some (b :: bs, ms)
  | [], [] => none
  | m :: ms, [] => fillBuf ms m.to_vec

/-- `WebSocketReceiver::poll_read` (src/lib.rs lines 821-840) with a
destination buffer of `n` free bytes: `none` signals end-of-stream (a read
returning zero bytes with the stream finished); otherwise the front of the
filled buffer is copied out and the remainder retained. -/
def poll_read (st : ReadState) (n : Nat) : Option (List Nat) × ReadState :=
  match fillBuf st.msgs st.read_buf with
  | none => (none, { msgs := [], read_buf := [] })
  | some (buf, ms) => (some (buf.take n), { msgs := ms, read_buf := buf.drop n })

/-- `WebSocketSender::poll_write` (src/lib.rs lines 752-757): each write
sends exactly one binary message containing the whole buffer and reports the
whole buffer's length as written. -/
def poll_write (buf : List Nat) : Msg × Nat := (.binary buf, buf.length)

/-- Repeatedly read with destination sizes `sizes 0, sizes 1, ...` until
end-of-stream, concatenating everything read; `none` when the fuel runs out
before end-of-stream. -/
def readRun (sizes : Nat → Nat) : Nat → Nat → ReadState → Option (List Nat)
  | 0, _, _ => none
  | fuel + 1, i, st =>
    match poll_read st (sizes i) with
    | (none, _) => some []
    | (some out, st') => (readRun sizes fuel (i + 1) st').map (fun rest => out ++ rest)

/-- All bytes not yet delivered: the partial-read buffer followed by the
bytes of the undelivered messages. -/
def pendingBytes (st : ReadState) : List Nat :=
  st.read_buf ++ (st.msgs.map Msg.to_vec).flatten

/-- Termination measure for reading: pending bytes plus pending messages. -/
def sizeMeasure (st : ReadState) : Nat :=
  st.read_buf.length + ((st.msgs.map Msg.to_vec).flatten).length + st.msgs.length

end ByteStream

/-! ## Transport facade (src/lib.rs, `WebSocketBuilder::connect`, `Interface`,
`WebSocket::into_split`) -/

/-- `Interface` from src/lib.rs: the two backends. -/
inductive Interface where
  | stream
  | standard
deriving DecidableEq

/-- Availability of the two browser interfaces in the current runtime,
modelling the global capability probes of `Interface::is_supported`
(src/lib.rs lines 99-105). -/
structure Env where
  streamSupported : Bool
  standardSupported : Bool
deriving DecidableEq

/-- `Interface::is_supported` (src/lib.rs lines 99-105) against an explicit
environment. -/
def Interface.is_supported (i : Interface) (env : Env) : Bool :=
  match i with
  | .stream => env.streamSupported
  | .standard => env.standardSupported

/-- Outcome of `WebSocketBuilder::connect` as far as backend selection is
concerned. -/
inductive ConnectOutcome where
  | connected (i : Interface)
  | errUnsupported (msg : String)
deriving DecidableEq

/-- Backend selection in `WebSocketBuilder::connect` (src/lib.rs lines
244-274): a pinned interface is used as-is, otherwise the stream interface is
preferred when supported; the chosen interface's availability is then
checked, failing with an unsupported error naming the missing interface. -/
def connect (env : Env) (pinned : Option Interface) : ConnectOutcome :=
  let i := match pinned with
    | some i => i
    | none => if Interface.stream.is_supported env then .stream else .standard
  if i.is_supported env then .connected i
  else match i with
    | .stream => .errUnsupported "WebSocketStream not supported"
    | .standard => .errUnsupported "WebSocket not supported"

/-- The buffer-relevant state of a connected `WebSocket` (src/lib.rs lines
285-289): the selected backend and the partial-read buffer `read_buf`. -/
structure WebSocketSt where
  interface : Interface
  read_buf : List Nat
deriving DecidableEq

/-- The buffer-relevant state of the `WebSocketReceiver` half. -/
structure ReceiverHalf where
  interface : Interface
  read_buf : List Nat
deriving DecidableEq

/-- The receiver half produced by `WebSocket::into_split` (src/lib.rs lines
331-349): the `Stream` arm moves the socket's `read_buf` into the receiver,
while the `Standard` arm constructs the receiver with `Vec::new()`. -/
def into_split (ws : WebSocketSt) : ReceiverHalf :=
  match ws.interface with
  | .stream => { interface := .stream, read_buf := ws.read_buf }
  | .standard => { interface := .standard, read_buf := [] }

/-! ## Native-backpressure backend sender (src/stream.rs, `Sender`) -/

namespace StreamApi

/-- The send-relevant state of the stream backend's `Sender` (src/stream.rs
lines 167-173): the pending native write, if any, plus a log of all native
writes issued so far. -/
structure Sender where
  writing : Option (List Nat)
  issued : List (List Nat)
deriving DecidableEq

/-- Outcome of `start_send`: a panic or the updated sender. -/
inductive SendOutcome where
  | panic
  | ok (s : Sender)
deriving DecidableEq

/-- `Sender::start_send` (src/stream.rs lines 206-214): panics when a write
is still pending, otherwise issues exactly one native write and records its
pending completion. -/
def start_send (s : Sender) (item : List Nat) : SendOutcome :=
  if s.writing.isSome then .panic
  else .ok { writing := some item, issued := s.issued ++ [item] }

/-- Outcome of one `poll_ready` call. -/
inductive ReadyPoll where
  | pending
  | readyOk
  | readyErr
deriving DecidableEq

/-- `Sender::poll_ready` (src/stream.rs lines 193-204): immediately ready
when no write is pending; otherwise polls the pending write's completion
(`completion` is `none` while unresolved, `some ok` once resolved) and clears
it once observed. -/
def poll_ready (s : Sender) (completion : Option Bool) : ReadyPoll × Sender :=
  match s.writing with
  | none => (.readyOk, s)
  | some _ =>
    match completion with
    | none => (.pending, s)
    | some true => (.readyOk, { s with writing := none })
    | some false => (.readyErr, { s with writing := none })

end StreamApi

/-! ## Theorems -/

/-- Round trip of the raw value through the close-code taxonomy. -/
lemma u16OfCloseCode_closeCodeOfU16 (v : Nat) : u16OfCloseCode (closeCodeOfU16 v) = v := by
  by_cases h1 : v = 1000
  · subst h1; rfl
  by_cases h2 : v = 1001
  · subst h2; rfl
  by_cases h3 : v = 1002
  · subst h3; rfl
  by_cases h4 : v = 1003
  · subst h4; rfl
  by_cases h5 : v = 1005
  · subst h5; rfl
  by_cases h6 : v = 1006
  · subst h6; rfl
  by_cases h7 : v = 1007
  · subst h7; rfl
  by_cases h8 : v = 1008
  · subst h8; rfl
  by_cases h9 : v = 1009
  · subst h9; rfl
  by_cases h10 : v = 1010
  · subst h10; rfl
  by_cases h11 : v = 1011
  · subst h11; rfl
  by_cases h12 : v = 1012
  · subst h12; rfl
  by_cases h13 : v = 1013
  · subst h13; rfl
  by_cases h14 : v = 1014
  · subst h14; rfl
  by_cases h15 : v = 1015
  · subst h15; rfl
  unfold closeCodeOfU16
  rw [if_neg h1, if_neg h2, if_neg h3, if_neg h4, if_neg h5, if_neg h6, if_neg h7, if_neg h8,
    if_neg h9, if_neg h10, if_neg h11, if_neg h12, if_neg h13, if_neg h14, if_neg h15]
  rfl

/-- C7: the mapping between `CloseCode` and the raw 16-bit value is total in
both directions: every u16 value round-trips through `CloseCode` unchanged,
the values 1000-1003 and 1005-1015 map to the corresponding named variants,
and the in-range gap 1004 maps to `Other 1004`. -/
theorem c7_close_code_u16_roundtrip :
    (∀ v : Fin 65536, u16OfCloseCode (closeCodeOfU16 v.val) = v.val) ∧
    closeCodeOfU16 1000 = .normalClosure ∧ closeCodeOfU16 1001 = .goingAway ∧
    closeCodeOfU16 1002 = .protocolError ∧ closeCodeOfU16 1003 = .unsupportedData ∧
    closeCodeOfU16 1005 = .noStatusRcvd ∧ closeCodeOfU16 1006 = .abnormalClosure ∧
    closeCodeOfU16 1007 = .invalidFramePayloadData ∧ closeCodeOfU16 1008 = .policyViolation ∧
    closeCodeOfU16 1009 = .messageTooBig ∧ closeCodeOfU16 1010 = .mandatoryExt ∧
    closeCodeOfU16 1011 = .internalError ∧ closeCodeOfU16 1012 = .serviceRestart ∧
    closeCodeOfU16 1013 = .tryAgainLater ∧ closeCodeOfU16 1014 = .badGateway ∧
    closeCodeOfU16 1015 = .tlsHandshake ∧ closeCodeOfU16 1004 = .other 1004 := by
  refine ⟨fun v => u16OfCloseCode_closeCodeOfU16 v.val, ?_, ?_, ?_, ?_, ?_, ?_, ?_, ?_, ?_,
    ?_, ?_, ?_, ?_, ?_, ?_, ?_⟩
  all_goals rfl

/-- C4: `close_with_reason(code, reason)` rejects at the call site (panics)
exactly when the code is neither `NormalClosure` nor `Other(v)` with
3000 ≤ v ≤ 4999; in particular `close(NormalClosure, "")` and
`close(Other(3500), "x")` succeed while `close(Other(2999), "x")` and
`close(ProtocolError, "x")` are rejected. -/
theorem c4_close_code_contract :
    (∀ code : CloseCode, code.is_valid = true ↔
        (code = .normalClosure ∨ ∃ v, code = .other v ∧ 3000 ≤ v ∧ v ≤ 4999)) ∧
    (∀ (code : CloseCode) (reason : String),
        code.is_valid = false → close_with_reason code reason = none) ∧
    (∀ (code : CloseCode) (reason : String),
        code.is_valid = true → close_with_reason code reason = some (u16OfCloseCode code, reason)) ∧
    close_with_reason .normalClosure "" = some (1000, "") ∧
    close_with_reason (.other 3500) "x" = some (3500, "x") ∧
    close_with_reason (.other 2999) "x" = none ∧
    close_with_reason .protocolError "x" = none := by
  refine ⟨fun code => ?_, fun code reason h => ?_, fun code reason h => ?_, ?_, ?_, ?_, ?_⟩
  · cases code <;> simp [CloseCode.is_valid]
  · simp [close_with_reason, h]
  · simp [close_with_reason, h]
  all_goals rfl

/-- Witness for C4 at concrete inputs. -/
theorem c4_close_code_contract_witness :
    close_with_reason (.other 2999) "x" = none ∧
    close_with_reason (.other 3500) "hello" = some (3500, "hello") :=
  ⟨c4_close_code_contract.2.1 (.other 2999) "x" (by decide),
   c4_close_code_contract.2.2.1 (.other 3500) "hello" (by decide)⟩

namespace Standard

lemma poll_next_nil {s : State} (h : s.queue = []) : (poll_next s).2 = s := by
  unfold poll_next
  rw [h]
  cases htx : s.txOpen with
  | true => simp
  | false =>
    cases hr : s.closedReason with
    | none => simp
    | some r =>
      by_cases hw : r.was_clean = true <;> simp [hw]

lemma poll_next_cons {s : State} {m : Msg} {rest : List Msg} (h : s.queue = m :: rest) :
    poll_next s = (.item m, { s with queue := rest, permits := s.permits + m.len }) := by
  unfold poll_next
  rw [h]

lemma creditInv_initState (rbs : Option Nat) :
    CreditInv (rbs.getD DEFAULT_RECEIVE_BUFFER_SIZE) (initState rbs) := by
  simp [CreditInv, initState, queuedBytes]

lemma creditInv_step {c : Nat} {s : State} (h : CreditInv c s) (e : Event) :
    CreditInv c (step s e) := by
  obtain ⟨hc, hp⟩ := h
  cases e with
  | arrive m =>
    simp only [step, on_msg]
    split_ifs with hlen htx
    · refine ⟨hc, ?_⟩
      simp only [queuedBytes, List.map_append, List.sum_append, List.map_cons, List.sum_cons,
        List.map_nil, List.sum_nil]
      simp only [queuedBytes] at hp
      omega
    · exact ⟨hc, hp⟩
    · exact ⟨hc, hp⟩
  | closeEvent code reason wasClean => exact ⟨hc, hp⟩
  | dequeue =>
    cases hq : s.queue with
    | nil =>
      simpa [step, poll_next_nil hq] using And.intro hc hp
    | cons m rest =>
      simp only [step, poll_next_cons hq]
      refine ⟨hc, ?_⟩
      simp only [queuedBytes, List.map_cons, List.sum_cons]
      simp only [queuedBytes, hq, List.map_cons, List.sum_cons] at hp
      omega

lemma creditInv_run (rbs : Option Nat) (es : List Event) :
    CreditInv (rbs.getD DEFAULT_RECEIVE_BUFFER_SIZE) (run rbs es) := by
  suffices h : ∀ (es : List Event) (s : State) (c : Nat),
      CreditInv c s → CreditInv c (es.foldl step s) by
    exact h es (initState rbs) _ (creditInv_initState rbs)
  intro es
  induction es with
  | nil => intro s c h; exact h
  | cons e es ih => intro s c h; exact ih (step s e) c (creditInv_step h e)

/-- C2: in every reachable state of the credit-pool backend, the queued but
not yet dequeued bytes never exceed the configured receive ceiling (default
67108864 bytes); a permit of the message's size is taken from the pool when
the message is enqueued and added back exactly when the caller dequeues it. -/
theorem c2_credit_pool_invariant :
    DEFAULT_RECEIVE_BUFFER_SIZE = 67108864 ∧
    (∀ (rbs : Option Nat) (es : List Event),
        queuedBytes (run rbs es) ≤ (run rbs es).capacity ∧
        (run rbs es).permits + queuedBytes (run rbs es) = (run rbs es).capacity ∧
        (run rbs es).capacity = rbs.getD DEFAULT_RECEIVE_BUFFER_SIZE) ∧
    (∀ (s : State) (m : Msg), s.txOpen = true → m.len ≤ s.permits →
        (on_msg s m).queue = s.queue ++ [m] ∧ (on_msg s m).permits = s.permits - m.len) ∧
    (∀ (s : State) (m : Msg) (rest : List Msg), s.queue = m :: rest →
        (poll_next s).1 = .item m ∧ (poll_next s).2.queue = rest ∧
        (poll_next s).2.permits = s.permits + m.len) := by
  refine ⟨rfl, fun rbs es => ?_, fun s m htx hlen => ?_, fun s m rest hq => ?_⟩
  · obtain ⟨hc, hp⟩ := creditInv_run rbs es
    refine ⟨by omega, by omega, hc⟩
  · constructor <;> simp [on_msg, hlen, htx]
  · refine ⟨?_, ?_, ?_⟩ <;> simp [poll_next_cons hq]

/-- Witness for C2 at concrete inputs. -/
theorem c2_credit_pool_invariant_witness :
    queuedBytes (run (some 10) [.arrive (.binary [1, 2, 3])]) ≤
      (run (some 10) [.arrive (.binary [1, 2, 3])]).capacity ∧
    (on_msg ⟨10, 10, [], true, none⟩ (.binary [1, 2])).queue = [Msg.binary [1, 2]] ∧
    (poll_next ⟨10, 7, [Msg.binary [1, 2, 3]], true, none⟩).1 = .item (.binary [1, 2, 3]) :=
  ⟨(c2_credit_pool_invariant.2.1 (some 10) [.arrive (.binary [1, 2, 3])]).1,
   (c2_credit_pool_invariant.2.2.1 ⟨10, 10, [], true, none⟩ (.binary [1, 2]) rfl (by decide)).1,
   (c2_credit_pool_invariant.2.2.2 ⟨10, 7, [Msg.binary [1, 2, 3]], true, none⟩
      (.binary [1, 2, 3]) [] rfl).1⟩

/-- C1 (amended): when a message arrives whose byte length cannot be covered
by the permit pool, the overflow reason (`MessageTooBig`, "receive buffer
overflow") is recorded and the delivery channel's sender is dropped, the
message is not enqueued, and once the sender is dropped the queue never
gains a message again — so no message arriving after that point is ever
delivered; messages already queued may still be dequeued by the caller. -/
theorem c1_overflow_forces_closure :
    (∀ (s : State) (m : Msg), s.permits < m.len →
        (on_msg s m).closedReason = some overflowReason ∧
        (on_msg s m).txOpen = false ∧
        (on_msg s m).queue = s.queue) ∧
    (∀ (s : State) (e : Event), s.txOpen = false →
        (step s e).txOpen = false ∧ (step s e).queue <:+ s.queue) ∧
    overflowReason =
      { code := .messageTooBig, reason := "receive buffer overflow", was_clean := false } := by
  refine ⟨fun s m hlen => ?_, fun s e htx => ?_, rfl⟩
  · have h : ¬ m.len ≤ s.permits := by omega
    refine ⟨?_, ?_, ?_⟩ <;> simp [on_msg, h]
  · cases e with
    | arrive m =>
      by_cases hlen : m.len ≤ s.permits
      · refine ⟨?_, ?_⟩ <;> simp [step, on_msg, hlen, htx]
      · refine ⟨?_, ?_⟩ <;> simp [step, on_msg, hlen]
    | closeEvent c r w => exact ⟨rfl, ⟨[], rfl⟩⟩
    | dequeue =>
      cases hq : s.queue with
      | nil =>
        have h2 : step s Event.dequeue = s := poll_next_nil hq
        rw [h2, hq]
        exact ⟨htx, ⟨[], rfl⟩⟩
      | cons m rest =>
        have h2 : step s Event.dequeue =
            { s with queue := rest, permits := s.permits + m.len } := by
          rw [show step s Event.dequeue = (poll_next s).2 from rfl, poll_next_cons hq]
        rw [h2]
        exact ⟨htx, ⟨[m], rfl⟩⟩

/-- Witness for C1 at concrete inputs. -/
theorem c1_overflow_forces_closure_witness :
    (on_msg ⟨4, 4, [], true, none⟩ (.binary [0, 0, 0, 0, 0])).closedReason =
      some overflowReason ∧
    (step ⟨4, 0, [Msg.binary [9]], false, some overflowReason⟩ .dequeue).txOpen = false :=
  ⟨(c1_overflow_forces_closure.1 ⟨4, 4, [], true, none⟩ (.binary [0, 0, 0, 0, 0])
      (by decide)).1,
   (c1_overflow_forces_closure.2.1 ⟨4, 0, [Msg.binary [9]], false, some overflowReason⟩
      .dequeue rfl).1⟩

/-- Counterexample to C1 as stated: after an overflow forces closure, a
message that was queued before the overflow is still delivered to the
caller, so "no message is delivered to the caller after that point" fails. -/
theorem c1_message_delivered_after_overflow :
    (run (some 10) [.arrive (.binary [0, 0, 0, 0, 0, 0]),
        .arrive (.binary [1, 1, 1, 1, 1, 1])]).closedReason = some overflowReason ∧
    (poll_next (run (some 10) [.arrive (.binary [0, 0, 0, 0, 0, 0]),
        .arrive (.binary [1, 1, 1, 1, 1, 1])])).1 = .item (.binary [0, 0, 0, 0, 0, 0]) :=
  ⟨rfl, rfl⟩

/-- C3: when the internal queue is exhausted and the channel closed, the
next dequeue's terminal result is determined by the recorded closure reason:
clean ends the stream, unclean yields a connection-reset error carrying the
reason text, and an absent reason yields a connection-reset failure. -/
theorem c3_terminal_dequeue :
    ∀ s : State, s.queue = [] → s.txOpen = false →
      ((∀ r, s.closedReason = some r → r.was_clean = true → (poll_next s).1 = .ended) ∧
       (∀ r, s.closedReason = some r → r.was_clean = false →
          (poll_next s).1 = .connReset r.reason) ∧
       (s.closedReason = none → (poll_next s).1 = .connReset "WebSocket closed")) := by
  intro s hq htx
  refine ⟨fun r hr hw => ?_, fun r hr hw => ?_, fun hr => ?_⟩
  · simp [poll_next, hq, htx, hr, hw]
  · simp [poll_next, hq, htx, hr, hw]
  · simp [poll_next, hq, htx, hr]

/-- Witness for C3 at concrete inputs. -/
theorem c3_terminal_dequeue_witness :
    (poll_next ⟨10, 10, [], false, some ⟨.normalClosure, "bye", true⟩⟩).1 = .ended ∧
    (poll_next ⟨10, 10, [], false, some ⟨.goingAway, "lost", false⟩⟩).1 = .connReset "lost" ∧
    (poll_next ⟨10, 10, [], false, none⟩).1 = .connReset "WebSocket closed" :=
  ⟨(c3_terminal_dequeue ⟨10, 10, [], false, some ⟨.normalClosure, "bye", true⟩⟩ rfl rfl).1
      ⟨.normalClosure, "bye", true⟩ rfl rfl,
   (c3_terminal_dequeue ⟨10, 10, [], false, some ⟨.goingAway, "lost", false⟩⟩ rfl rfl).2.1
      ⟨.goingAway, "lost", false⟩ rfl rfl,
   (c3_terminal_dequeue ⟨10, 10, [], false, none⟩ rfl rfl).2.2 rfl⟩

/-- Counterexample to C5 as stated: the recorded `ClosedReason` is not
produced exactly once nor immutable — a receive-buffer overflow records
`MessageTooBig`, and a subsequent transport close event replaces it via
`send_replace`, so observers resolving before and after the replacement
obtain different values. -/
theorem c5_closed_reason_replaced :
    (run (some 4) [.arrive (.binary [0, 0, 0, 0, 0])]).closedReason = some overflowReason ∧
    (run (some 4) [.arrive (.binary [0, 0, 0, 0, 0]),
        .closeEvent 1000 "" true]).closedReason =
      some { code := .normalClosure, reason := "", was_clean := true } ∧
    overflowReason ≠
      ({ code := .normalClosure, reason := "", was_clean := true } : ClosedReason) := by
  refine ⟨rfl, rfl, ?_⟩
  decide

/-- C5 (amended): a closure reason may be recorded more than once (a later
close event replaces an earlier overflow reason), so the recorded value is
not immutable; events that do not record a reason never change it, and
every observer resolving at a given state obtains the identical currently
recorded value. -/
theorem c5_closed_reason_observation :
    (∀ (s : State) (e : Event), recordsReason s e = false →
        (step s e).closedReason = s.closedReason) ∧
    (∀ (s : State) (r r' : ClosedReason),
        observeClosed s = some r → observeClosed s = some r' → r = r') ∧
    (∀ (s : State) (r : ClosedReason), s.closedReason = some r → observeClosed s = some r) := by
  refine ⟨fun s e h => ?_, fun s r r' h h' => ?_, fun s r h => h⟩
  · cases e with
    | arrive m =>
      simp only [recordsReason, decide_eq_false_iff_not, Nat.not_lt] at h
      by_cases htx : s.txOpen = true <;> simp [step, on_msg, h, htx]
    | closeEvent c r w => simp [recordsReason] at h
    | dequeue =>
      cases hq : s.queue with
      | nil => rw [show step s .dequeue = (poll_next s).2 from rfl, poll_next_nil hq]
      | cons m rest => rw [show step s .dequeue = (poll_next s).2 from rfl, poll_next_cons hq]
  · rw [h] at h'
    exact Option.some_inj.mp h'

/-- Witness for C5's amended statement at concrete inputs. -/
theorem c5_closed_reason_observation_witness :
    (step ⟨4, 4, [], true, some overflowReason⟩ .dequeue).closedReason = some overflowReason ∧
    observeClosed ⟨4, 4, [], false, some overflowReason⟩ = some overflowReason :=
  ⟨c5_closed_reason_observation.1 ⟨4, 4, [], true, some overflowReason⟩ .dequeue rfl,
   c5_closed_reason_observation.2.2 ⟨4, 4, [], false, some overflowReason⟩ overflowReason rfl⟩

end Standard

namespace ByteStream

lemma fillBuf_none {ms : List Msg} {buf : List Nat} (h : fillBuf ms buf = none) :
    buf = [] ∧ (ms.map Msg.to_vec).flatten = [] := by
  induction ms generalizing buf with
  | nil =>
    cases buf with
    | nil => exact ⟨rfl, rfl⟩
    | cons b bs => simp [fillBuf] at h
  | cons m ms ih =>
    cases buf with
    | cons b bs => simp [fillBuf] at h
    | nil =>
      rw [show fillBuf (m :: ms) [] = fillBuf ms m.to_vec from rfl] at h
      obtain ⟨h1, h2⟩ := ih h
      refine ⟨rfl, ?_⟩
      simp [h1, h2]

lemma fillBuf_some {ms ms' : List Msg} {buf buf' : List Nat}
    (h : fillBuf ms buf = some (buf', ms')) :
    buf' ≠ [] ∧
    buf ++ (ms.map Msg.to_vec).flatten = buf' ++ (ms'.map Msg.to_vec).flatten ∧
    buf'.length + ((ms'.map Msg.to_vec).flatten).length + ms'.length ≤
      buf.length + ((ms.map Msg.to_vec).flatten).length + ms.length := by
  induction ms generalizing buf with
  | nil =>
    cases buf with
    | nil => simp [fillBuf] at h
    | cons b bs =>
      rw [show fillBuf [] (b :: bs) = some (b :: bs, []) from rfl] at h
      obtain ⟨h1, h2⟩ := Prod.mk.injEq .. ▸ Option.some_inj.mp h
      subst h1
      subst h2
      exact ⟨by simp, rfl, le_refl _⟩
  | cons m ms ih =>
    cases buf with
    | cons b bs =>
      rw [show fillBuf (m :: ms) (b :: bs) = some (b :: bs, m :: ms) from rfl] at h
      obtain ⟨h1, h2⟩ := Prod.mk.injEq .. ▸ Option.some_inj.mp h
      subst h1
      subst h2
      exact ⟨by simp, rfl, le_refl _⟩
    | nil =>
      rw [show fillBuf (m :: ms) [] = fillBuf ms m.to_vec from rfl] at h
      obtain ⟨hne, heq, hle⟩ := ih h
      refine ⟨hne, ?_, ?_⟩
      · simpa using heq
      · simp only [List.map_cons, List.flatten_cons, List.length_append, List.length_nil,
          List.length_cons]
        omega

lemma readRun_complete (sizes : Nat → Nat) (hs : ∀ i, 1 ≤ sizes i) :
    ∀ (fuel : Nat) (st : ReadState) (i : Nat), sizeMeasure st < fuel →
      readRun sizes fuel i st = some (pendingBytes st) := by
  intro fuel
  induction fuel with
  | zero => intro st i h; omega
  | succ f ih =>
    intro st i h
    cases hf : fillBuf st.msgs st.read_buf with
    | none =>
      obtain ⟨h1, h2⟩ := fillBuf_none hf
      have hpr : poll_read st (sizes i) = (none, ⟨[], []⟩) := by
        simp [poll_read, hf]
      simp [readRun, hpr, pendingBytes, h1, h2]
    | some pr =>
      obtain ⟨buf, ms⟩ := pr
      obtain ⟨hne, heq, hle⟩ := fillBuf_some hf
      have hpr : poll_read st (sizes i) =
          (some (buf.take (sizes i)), ⟨ms, buf.drop (sizes i)⟩) := by
        simp [poll_read, hf]
      have hblen : 1 ≤ buf.length := List.length_pos.mpr hne
      have hmeas : sizeMeasure (⟨ms, buf.drop (sizes i)⟩ : ReadState) < f := by
        have hsz := hs i
        simp only [sizeMeasure] at h hle ⊢
        simp only [List.length_drop]
        omega
      have hrec := ih (⟨ms, buf.drop (sizes i)⟩ : ReadState) (i + 1) hmeas
      simp only [readRun, hpr, hrec, Option.map, pendingBytes]
      congr 1
      rw [← List.append_assoc, List.take_append_drop, ← heq]

/-- C6: byte-stream adapter round trip. Each write sends exactly one binary
message containing the whole buffer; end-of-stream is reported only when the
underlying receiver is exhausted and the partial-read buffer is empty; for
any sequence of written buffers and any schedule of positive destination
sizes, reading until end-of-stream yields exactly the concatenation of the
written buffers. -/
theorem c6_byte_stream_roundtrip :
    (∀ buf : List Nat, poll_write buf = (Msg.binary buf, buf.length)) ∧
    (∀ (st : ReadState) (n : Nat), (poll_read st n).1 = none →
        st.read_buf = [] ∧ (st.msgs.map Msg.to_vec).flatten = []) ∧
    (∀ (bs : List (List Nat)) (sizes : Nat → Nat), (∀ i, 1 ≤ sizes i) →
        ∃ fuel, readRun sizes fuel 0 ⟨bs.map Msg.binary, []⟩ = some bs.flatten) := by
  refine ⟨fun buf => rfl, fun st n h => ?_, fun bs sizes hs => ?_⟩
  · cases hf : fillBuf st.msgs st.read_buf with
    | none => exact fillBuf_none hf
    | some pr =>
      obtain ⟨b, m⟩ := pr
      simp [poll_read, hf] at h
  · refine ⟨sizeMeasure ⟨bs.map Msg.binary, []⟩ + 1, ?_⟩
    rw [readRun_complete sizes hs (sizeMeasure ⟨bs.map Msg.binary, []⟩ + 1)
      ⟨bs.map Msg.binary, []⟩ 0 (Nat.lt_succ_self _)]
    congr 1
    simp [pendingBytes, List.map_map, Function.comp_def, Msg.to_vec]

/-- Witness for C6 at concrete inputs. -/
theorem c6_byte_stream_roundtrip_witness :
    ∃ fuel, readRun (fun _ => 2) fuel 0 ⟨[Msg.binary [1, 2, 3], Msg.binary [4]], []⟩ =
      some [1, 2, 3, 4] :=
  c6_byte_stream_roundtrip.2.2 [[1, 2, 3], [4]] (fun _ => 2) (fun _ => one_le_two)

end ByteStream

/-- C8: backend selection at connect: a pinned but unavailable interface
fails with an unsupported error, a pinned available interface is used, and
with nothing pinned the stream interface is preferred when available with
the standard interface as fallback. -/
theorem c8_backend_selection :
    (∀ (env : Env) (i : Interface), i.is_supported env = false →
        ∃ msg, connect env (some i) = .errUnsupported msg) ∧
    (∀ (env : Env) (i : Interface), i.is_supported env = true →
        connect env (some i) = .connected i) ∧
    (∀ env : Env, env.streamSupported = true → connect env none = .connected .stream) ∧
    (∀ env : Env, env.streamSupported = false → env.standardSupported = true →
        connect env none = .connected .standard) := by
  refine ⟨fun env i h => ?_, fun env i h => ?_, fun env h => ?_, fun env h1 h2 => ?_⟩
  · cases i with
    | stream => exact ⟨"WebSocketStream not supported", by simp [connect, h]⟩
    | standard => exact ⟨"WebSocket not supported", by simp [connect, h]⟩
  · simp [connect, h]
  · simp [connect, Interface.is_supported, h]
  · simp [connect, Interface.is_supported, h1, h2]

/-- Witness for C8 at concrete inputs. -/
theorem c8_backend_selection_witness :
    (∃ msg, connect ⟨false, true⟩ (some .stream) = .errUnsupported msg) ∧
    connect ⟨true, true⟩ none = .connected .stream ∧
    connect ⟨false, true⟩ none = .connected .standard :=
  ⟨c8_backend_selection.1 ⟨false, true⟩ .stream rfl,
   c8_backend_selection.2.2.1 ⟨true, true⟩ rfl,
   c8_backend_selection.2.2.2 ⟨false, true⟩ rfl rfl⟩

/-- C9: the stream backend's `start_send` issues exactly one native write
and records its pending completion; a second `start_send` before the
completion is observed via `poll_ready` panics; once `poll_ready` reports
ready, no write is pending any more. -/
theorem c9_start_send_contract :
    (∀ (s : StreamApi.Sender) (item : List Nat), s.writing = none →
        StreamApi.start_send s item =
          .ok { writing := some item, issued := s.issued ++ [item] }) ∧
    (∀ (s s' : StreamApi.Sender) (i j : List Nat),
        StreamApi.start_send s i = .ok s' → StreamApi.start_send s' j = .panic) ∧
    (∀ (s : StreamApi.Sender) (c : Option Bool),
        (StreamApi.poll_ready s c).1 = .readyOk →
          ((StreamApi.poll_ready s c).2).writing = none) := by
  refine ⟨fun s item h => ?_, fun s s' i j h => ?_, fun s c h => ?_⟩
  · simp [StreamApi.start_send, h]
  · unfold StreamApi.start_send at h
    split_ifs at h with hw
    have h2 := StreamApi.SendOutcome.ok.inj h
    subst h2
    simp [StreamApi.start_send]
  · cases hw : s.writing with
    | none => simp [StreamApi.poll_ready, hw]
    | some w =>
      cases c with
      | none => simp [StreamApi.poll_ready, hw] at h
      | some b =>
        cases b with
        | true => simp [StreamApi.poll_ready, hw]
        | false => simp [StreamApi.poll_ready, hw] at h

/-- Witness for C9 at concrete inputs. -/
theorem c9_start_send_contract_witness :
    StreamApi.start_send ⟨none, []⟩ [7] = .ok ⟨some [7], [[7]]⟩ ∧
    StreamApi.start_send ⟨some [7], [[7]]⟩ [8] = .panic :=
  ⟨c9_start_send_contract.1 ⟨none, []⟩ [7] rfl,
   c9_start_send_contract.2.1 ⟨none, []⟩ ⟨some [7], [[7]]⟩ [7] [8]
     (c9_start_send_contract.1 ⟨none, []⟩ [7] rfl)⟩

/-- C10 (code evaluated at the failing input): `into_split` transfers the
partial-read buffer into the receiver for the stream backend, but the
standard backend's arm constructs the receiver with an empty buffer,
discarding bytes already pulled from the transport. -/
theorem c10_split_standard_discards_read_buf :
    (into_split ⟨.standard, [1, 2, 3]⟩).read_buf = [] ∧
    (into_split ⟨.stream, [1, 2, 3]⟩).read_buf = [1, 2, 3] :=
  ⟨rfl, rfl⟩

end WebsocketWeb
